import Mathlib

/-!
Shallow embedding of the iyaya-backend admin moderation workflow
(`src/controllers/adminController.js`, `src/controllers/reportController.js`,
`src/services/supabaseService.js`, `src/services/auditService.js`,
`src/services/reportService.js`), together with theorems checking the
natural-language specification against it.

Conventions of the embedding:
* Database tables become lists of rows inside a single `Db` state; every
  controller handler is a pure function `... → Db → Outcome α × Db`.
* JavaScript `undefined`/`null` string fields become `Option String`;
  the JS truthiness test `!x` on such a field is `falsy`.
* Timestamps are abstract natural numbers; `new Date()` becomes an explicit
  `now : Nat` parameter, and `now + durationDays` stands for date addition.
* A Supabase call that `throw`s is modelled by an `Except`/`Option` result;
  the controller-level `try/catch` that maps a thrown error to an HTTP 500
  response is the surrounding `match`.
* Only the audit-log insert is given an explicit failure mode
  (`Db.auditFails`), because the specification makes claims about audit-write
  failures; all other storage operations are modelled as succeeding.
-/

namespace Iyaya

/-- Result of a controller handler: an HTTP-level success payload or an
error with its status code and message. -/
inductive Outcome (α : Type) where
  | ok (data : α)
  | err (statusCode : Nat) (msg : String)
deriving DecidableEq, Repr

/-- Row of the `audit_logs` table. `metadata` keeps the JSON object as an
ordered key/value list; a `none` value is JSON `null`. -/
structure AuditEntry where
  admin_id : String
  action : String
  target_id : String
  metadata : List (String × Option String)
deriving DecidableEq, Repr

/-- Row of the `jobs` table (fields relevant to status transitions). -/
structure Job where
  id : String
  status : String
deriving DecidableEq, Repr

/-- Row of the `bookings` table (fields relevant to status transitions). -/
structure Booking where
  id : String
  status : String
deriving DecidableEq, Repr

/-- Row of the `payments` table. -/
structure Payment where
  id : String
  booking_id : String
  payment_status : String
  notes : Option String := none
  refund_reason : Option String := none
deriving DecidableEq, Repr

/-- Row of the `payment_proofs` table. -/
structure ProofRow where
  id : String
  booking_id : String
  storage_path : Option String := none
  public_url : Option String := none
  mime_type : Option String := none
deriving DecidableEq, Repr

/-- Row of the `users` table (fields touched by the admin moderation flow). -/
structure User where
  id : String
  email : String := ""
  name : String := ""
  role : String
  status : String
  status_reason : Option String := none
  status_updated_at : Option Nat := none
  status_updated_by : Option String := none
  suspension_end_date : Option Nat := none
  suspension_count : Option Nat := none
  last_suspension_at : Option Nat := none
  deleted_at : Option Nat := none
  deleted_by : Option String := none
deriving DecidableEq, Repr

/-- Row of the `user_reports` table (fields touched by `updateReportStatus`). -/
structure Report where
  id : String
  status : String
  admin_notes : Option String := none
  reviewed_by : Option String := none
  reviewed_at : Option Nat := none
  resolution : Option String := none
  updated_at : Option Nat := none
deriving DecidableEq, Repr

/-- Row of the `user_status_history` table. -/
structure StatusHistoryEntry where
  user_id : String
  status : String
  reason : Option String
  changed_by : Option String
  changed_at : Nat
deriving DecidableEq, Repr

/-- The authenticated admin actor (`req.user`). -/
structure Actor where
  id : String
  role : String
deriving DecidableEq, Repr

/-- The persistent state reached through the Supabase client: one list per
table, plus a switch making the `audit_logs` insert fail (the one storage
failure mode the spec talks about). -/
structure Db where
  users : List User := []
  jobs : List Job := []
  bookings : List Booking := []
  payments : List Payment := []
  paymentProofs : List ProofRow := []
  reports : List Report := []
  auditLogs : List AuditEntry := []
  statusHistory : List StatusHistoryEntry := []
  auditFails : Bool := false
deriving DecidableEq, Repr

/-! ### Small string helpers

Lean's built-in `String.trim`/`String.toLower`/`String.startsWith` do not
reduce inside the kernel, so the embedding carries its own executable
versions with the JavaScript semantics. -/

/-- Whitespace as stripped by JS `String.prototype.trim` (the characters
that occur in this codebase's inputs). -/
def isWs (c : Char) : Bool := c == ' ' || c == '\t' || c == '\n' || c == '\r'

/-- JS `s.trim()`: strip leading and trailing whitespace. -/
def strTrim (s : String) : String :=
  ⟨((s.data.dropWhile isWs).reverse.dropWhile isWs).reverse⟩

/-- ASCII lower-casing of one character (JS `toLowerCase` on the ASCII
status/MIME strings this codebase handles). -/
def charLower (c : Char) : Char :=
  if 'A' ≤ c && c ≤ 'Z' then Char.ofNat (c.toNat + 32) else c

/-- JS `s.toLowerCase()`. -/
def strToLower (s : String) : String := ⟨s.data.map charLower⟩

/-- JS `s.startsWith(p)`. -/
def strStartsWith (s p : String) : Bool := p.data.isPrefixOf s.data

/-! ### Small helpers from adminController.js -/

/-- `trimToString` (adminController.js): `typeof value === "string" ? value.trim() : ""`. -/
def trimToString (v : Option String) : String := strTrim (v.getD "")

/-- JS truthiness test `!x` on a nullable string field: true for
`undefined`/`null` and for the empty string. -/
def falsy (v : Option String) : Bool := (v.getD "") == ""

/-- `PAYMENT_STATUS_VALUES` (adminController.js). -/
def PAYMENT_STATUS_VALUES : List String := ["pending", "paid", "disputed", "refunded"]

/-! ### Audit trail (supabaseService.js `AuditLogService`, auditService.js) -/

/-- `AuditLogService.create`: a single insert into `audit_logs`; on a storage
error it `throw`s (`if (error) throw error`), modelled as `Except.error`. -/
def auditCreate (entry : AuditEntry) (db : Db) : Except String (AuditEntry × Db) :=
  if db.auditFails then .error "audit insert failed"
  else .ok (entry, { db with auditLogs := db.auditLogs ++ [entry] })

/-- `logAction` (auditService.js, the legacy wrapper): wraps
`AuditLogService.create` in `try/catch`, returning `null` (here `none`)
instead of throwing when the insert fails. -/
def logAction (entry : AuditEntry) (db : Db) : Option AuditEntry × Db :=
  match auditCreate entry db with
  | .error _ => (none, db)
  | .ok (e, db1) => (some e, db1)

/-! ### Payment-proof review (supabaseService.js pure helpers) -/

/-- `assessProof` (supabaseService.js): issue list and suspicion flag for one
`payment_proofs` row. -/
def assessProof (proof : ProofRow) : List String × Bool :=
  let issues :=
    (if falsy proof.storage_path then ["Missing storage path"] else []) ++
    (if falsy proof.public_url then ["Missing public URL"] else []) ++
    (if falsy proof.mime_type then ["Unknown MIME type"]
     else if strStartsWith (strToLower (proof.mime_type.getD "")) "image/" then []
     else ["Unexpected MIME type: " ++ proof.mime_type.getD ""])
  (issues, decide (issues.length > 0))

/-- A proof row as shaped by `normalizeProof` (supabaseService.js), keeping
the fields the review logic reads. -/
structure NormProof where
  id : String
  bookingId : String
  issues : List String
  suspicious : Bool
deriving DecidableEq, Repr

/-- `normalizeProof` (supabaseService.js). -/
def normalizeProof (proof : ProofRow) : NormProof :=
  { id := proof.id
    bookingId := proof.booking_id
    issues := (assessProof proof).1
    suspicious := (assessProof proof).2 }

/-- A payment as shaped by `normalizePaymentRecord` (supabaseService.js),
keeping the fields the claims read. -/
structure NormPayment where
  id : String
  bookingId : String
  paymentStatus : String
  notes : Option String
  refundReason : Option String
  proofs : List NormProof
  proofIssues : List String
  proofStatus : String
deriving DecidableEq, Repr

/-- `normalizePaymentRecord` (supabaseService.js): derives `proofIssues` and
`proofStatus` from the payment's proof set; never persisted. -/
def normalizePaymentRecord (record : Payment) (proofs : List NormProof) : NormPayment :=
  let proofIssues :=
    (proofs.flatMap (fun p => p.issues)) ++
    (if proofs.isEmpty then ["No payment proof uploaded"] else [])
  let hasSuspiciousProof := proofs.any (fun p => p.suspicious)
  { id := record.id
    bookingId := record.booking_id
    paymentStatus := record.payment_status
    notes := record.notes
    refundReason := record.refund_reason
    proofs := proofs
    proofIssues := proofIssues
    proofStatus := if hasSuspiciousProof || !proofIssues.isEmpty then "needs_review" else "ok" }

/-! ### Job service (supabaseService.js `JobService`) and the exported admin
job handlers.

adminController.js defines `approveJob`/`rejectJob`/`cancelJob`/`completeJob`/
`reopenJob` twice. The assignments at lines 1255–1427 overwrite the earlier
ones (lines 498–650), and `module.exports` reads `exports.approveJob` after
both, so the routes dispatch to the later definitions. Those are what this
embedding models as the handlers; they perform no `allowedCurrentStatuses`
check and delegate straight to the `JobService` transition helpers. -/

/-- `JobService.findById` (join fields omitted: they do not affect status). -/
def findJob (id : String) (db : Db) : Option Job :=
  db.jobs.find? (fun j => j.id == id)

/-- `JobService.updateStatus`: `update({status}).eq("id", id).single()`;
`none` models the thrown error when no row matches. -/
def jobUpdateStatus (id status : String) (db : Db) : Option (Job × Db) :=
  match db.jobs.find? (fun j => j.id == id) with
  | none => none
  | some j =>
    let j2 := { j with status := status }
    some (j2, { db with jobs := db.jobs.map (fun x => if x.id == id then j2 else x) })

/-- `JobService.approve`: mark as `filled`. -/
def jobServiceApprove (id : String) (db : Db) : Option (Job × Db) :=
  jobUpdateStatus id "filled" db

/-- `JobService.reject`: rejected jobs are treated as `cancelled`. -/
def jobServiceReject (id : String) (db : Db) : Option (Job × Db) :=
  jobUpdateStatus id "cancelled" db

/-- `JobService.cancel`. -/
def jobServiceCancel (id : String) (db : Db) : Option (Job × Db) :=
  jobUpdateStatus id "cancelled" db

/-- `JobService.complete`. -/
def jobServiceComplete (id : String) (db : Db) : Option (Job × Db) :=
  jobUpdateStatus id "completed" db

/-- `JobService.reopen`: moves the job back to `active`. -/
def jobServiceReopen (id : String) (db : Db) : Option (Job × Db) :=
  jobUpdateStatus id "active" db

/-- Shared shape of the five exported job handlers: find the job (404 when
absent), run the service transition, then `await AuditLogService.create`
directly — a thrown audit error falls through to the handler's `catch`,
which answers 500 (after the job row has already been updated). -/
def jobActionRun (jobId : String) (service : String → Db → Option (Job × Db))
    (entry : AuditEntry) (db : Db) : Outcome Job × Db :=
  match findJob jobId db with
  | none => (.err 404 "Job not found", db)
  | some _ =>
    match service jobId db with
    | none => (.err 500 "Unexpected Supabase error", db)
    | some (updatedJob, db1) =>
      match auditCreate entry db1 with
      | .error msg => (.err 500 msg, db1)
      | .ok (_, db2) => (.ok updatedJob, db2)

/-- Exported `approveJob` (adminController.js:1255). -/
def approveJobHandler (jobId adminId : String) (db : Db) : Outcome Job × Db :=
  jobActionRun jobId jobServiceApprove
    { admin_id := adminId, action := "APPROVE_JOB", target_id := jobId
      metadata := [("status", some "approved")] } db

/-- Exported `rejectJob` (adminController.js:1289). -/
def rejectJobHandler (jobId adminId : String) (reason : Option String) (db : Db) :
    Outcome Job × Db :=
  jobActionRun jobId jobServiceReject
    { admin_id := adminId, action := "REJECT_JOB", target_id := jobId
      metadata := [("status", some "rejected"), ("reason", reason)] } db

/-- Exported `cancelJob` (adminController.js:1325). -/
def cancelJobHandler (jobId adminId : String) (reason : Option String) (db : Db) :
    Outcome Job × Db :=
  jobActionRun jobId jobServiceCancel
    { admin_id := adminId, action := "CANCEL_JOB", target_id := jobId
      metadata := [("status", some "cancelled"), ("reason", reason)] } db

/-- Exported `completeJob` (adminController.js:1361). -/
def completeJobHandler (jobId adminId : String) (db : Db) : Outcome Job × Db :=
  jobActionRun jobId jobServiceComplete
    { admin_id := adminId, action := "COMPLETE_JOB", target_id := jobId
      metadata := [("status", some "completed")] } db

/-- Exported `reopenJob` (adminController.js:1395). -/
def reopenJobHandler (jobId adminId : String) (db : Db) : Outcome Job × Db :=
  jobActionRun jobId jobServiceReopen
    { admin_id := adminId, action := "REOPEN_JOB", target_id := jobId
      metadata := [("status", some "open")] } db

/-- The five admin job transitions. -/
inductive JobAction where
  | approve | reject | cancel | complete | reopen
deriving DecidableEq, Repr

/-- Status each exported handler writes through `JobService`. -/
def jobActionTarget : JobAction → String
  | .approve => "filled"
  | .reject => "cancelled"
  | .cancel => "cancelled"
  | .complete => "completed"
  | .reopen => "active"

/-- Dispatch an admin job transition to its exported handler. -/
def runJobAction (a : JobAction) (jobId adminId : String) (reason : Option String)
    (db : Db) : Outcome Job × Db :=
  match a with
  | .approve => approveJobHandler jobId adminId db
  | .reject => rejectJobHandler jobId adminId reason db
  | .cancel => cancelJobHandler jobId adminId reason db
  | .complete => completeJobHandler jobId adminId db
  | .reopen => reopenJobHandler jobId adminId db

/-- The `status` label each exported handler records in its audit metadata
(note `reopenJob` logs `open` while the service persists `active`). -/
def jobActionLabel : JobAction → String
  | .approve => "approved"
  | .reject => "rejected"
  | .cancel => "cancelled"
  | .complete => "completed"
  | .reopen => "open"

/-! ### Booking service and handlers (supabaseService.js `BookingService`,
adminController.js booking endpoints). -/

/-- `BookingService.findById` (join fields omitted). -/
def findBooking (id : String) (db : Db) : Option Booking :=
  db.bookings.find? (fun b => b.id == id)

/-- `BookingService.updateStatus`. -/
def bookingUpdateStatus (id status : String) (db : Db) : Option (Booking × Db) :=
  match db.bookings.find? (fun b => b.id == id) with
  | none => none
  | some b =>
    let b2 := { b with status := status }
    some (b2, { db with bookings := db.bookings.map (fun x => if x.id == id then b2 else x) })

/-- `applyBookingStatusChange` (adminController.js:218): find the booking,
reject with 400 when `allowedCurrentStatuses` is given and does not contain
the current status, otherwise write the target status and append an audit
entry with `{from, to, reason}` metadata. -/
def applyBookingStatusChange (bookingId adminId targetStatus auditAction : String)
    (reason : Option String) (allowedCurrentStatuses : Option (List String))
    (errorHint : Option String) (db : Db) : Outcome Booking × Db :=
  match findBooking bookingId db with
  | none => (.err 404 "Booking not found", db)
  | some booking =>
    if (match allowedCurrentStatuses with
        | some allowed => !(allowed.contains booking.status)
        | none => false) then
      (.err 400 (errorHint.getD
        ("Cannot transition booking from " ++ booking.status ++ " to " ++ targetStatus)), db)
    else
      match bookingUpdateStatus bookingId targetStatus db with
      | none => (.err 500 "Unexpected Supabase error", db)
      | some (updatedBooking, db1) =>
        match auditCreate
          { admin_id := adminId, action := auditAction, target_id := bookingId
            metadata := [("from", some booking.status), ("to", some targetStatus),
                         ("reason", reason)] } db1 with
        | .error msg => (.err 500 msg, db1)
        | .ok (_, db2) => (.ok updatedBooking, db2)

/-- Booking statuses accepted by the generic PATCH endpoint (the DB enum). -/
def BOOKING_STATUS_VALUES : List String := ["pending", "confirmed", "completed", "cancelled"]

/-- `updateBookingStatus` (adminController.js:1579): validates the target
against the DB enum, then applies it with **no** `allowedCurrentStatuses`. -/
def updateBookingStatusHandler (bookingId adminId : String) (status : Option String)
    (reason : Option String) (db : Db) : Outcome Booking × Db :=
  match status with
  | none => (.err 400 "Invalid status value", db)
  | some s =>
    if !(BOOKING_STATUS_VALUES.contains s) then (.err 400 "Invalid status value", db)
    else applyBookingStatusChange bookingId adminId s "UPDATE_BOOKING_STATUS"
      reason none none db

/-- `confirmBooking` (adminController.js:1618). -/
def confirmBookingHandler (bookingId adminId : String) (reason : Option String)
    (db : Db) : Outcome Booking × Db :=
  applyBookingStatusChange bookingId adminId "confirmed" "CONFIRM_BOOKING" reason
    (some ["pending"]) (some "Only pending bookings can be confirmed") db

/-- `startBooking` (adminController.js:1650): "start" keeps the status at
`confirmed` and is recorded only in the audit trail. -/
def startBookingHandler (bookingId adminId : String) (db : Db) : Outcome Booking × Db :=
  applyBookingStatusChange bookingId adminId "confirmed" "START_BOOKING" none
    (some ["confirmed"]) none db

/-- `completeBooking` (adminController.js:1681). -/
def completeBookingHandler (bookingId adminId : String) (db : Db) : Outcome Booking × Db :=
  applyBookingStatusChange bookingId adminId "completed" "COMPLETE_BOOKING" none
    (some ["confirmed"]) none db

/-- `cancelBooking` (adminController.js:1711). -/
def cancelBookingHandler (bookingId adminId : String) (reason : Option String)
    (db : Db) : Outcome Booking × Db :=
  applyBookingStatusChange bookingId adminId "cancelled" "CANCEL_BOOKING" reason
    (some ["pending", "confirmed"])
    (some "Only pending or confirmed bookings can be cancelled") db

/-! ### Payment service (supabaseService.js `PaymentService`,
`PaymentProofService`) and the admin payment handlers. -/

/-- `PaymentProofService.listByBookingId` followed by `normalizeProof`:
the normalized proof set of a booking. -/
def proofsForBooking (bookingId : String) (db : Db) : List NormProof :=
  (db.paymentProofs.filter (fun p => p.booking_id == bookingId)).map normalizeProof

/-- The raw `payments` row with a given id. -/
def paymentRow (id : String) (db : Db) : Option Payment :=
  db.payments.find? (fun p => p.id == id)

/-- Re-join and normalize one payment row against the current proof set. -/
def normPaymentOf (db : Db) (p : Payment) : NormPayment :=
  normalizePaymentRecord p (proofsForBooking p.booking_id db)

/-- `PaymentService.findById`: fetch the row, join its proofs, normalize. -/
def paymentFindById (id : String) (db : Db) : Option NormPayment :=
  (paymentRow id db).map (normPaymentOf db)

/-- `PaymentService.updateStatus`: write `payment_status` and `notes`,
return the re-joined normalized record. -/
def paymentUpdateStatus (id status : String) (notes : Option String) (db : Db) :
    Option (NormPayment × Db) :=
  match db.payments.find? (fun p => p.id == id) with
  | none => none
  | some p =>
    let p2 := { p with payment_status := status, notes := notes }
    let db1 := { db with payments := db.payments.map (fun x => if x.id == id then p2 else x) }
    some (normPaymentOf db1 p2, db1)

/-- `PaymentService.refund`: write `payment_status = "refunded"` and
`refund_reason` (`reason || null`), return the re-joined record. -/
def paymentRefund (id : String) (reason : String) (db : Db) :
    Option (NormPayment × Db) :=
  match db.payments.find? (fun p => p.id == id) with
  | none => none
  | some p =>
    let p2 := { p with payment_status := "refunded"
                       refund_reason := if reason == "" then none else some reason }
    let db1 := { db with payments := db.payments.map (fun x => if x.id == id then p2 else x) }
    some (normPaymentOf db1 p2, db1)

/-- `updatePaymentStatus` (adminController.js:340): normalize the requested
status, validate it against `PAYMENT_STATUS_VALUES`, treat a same-status
update as a successful no-op, require non-empty `notes` for `paid`, then
update and audit with `{from, to, notes, proofStatus}` metadata. -/
def updatePaymentStatusHandler (paymentId adminId : String)
    (status notes : Option String) (db : Db) : Outcome NormPayment × Db :=
  let normalizedStatus := strToLower (trimToString status)
  if !(PAYMENT_STATUS_VALUES.contains normalizedStatus) then
    (.err 400 "Invalid status value", db)
  else
    match paymentFindById paymentId db with
    | none => (.err 404 "Payment not found", db)
    | some existing =>
      if existing.paymentStatus == normalizedStatus then
        (.ok existing, db)
      else if normalizedStatus == "paid" && trimToString notes == "" then
        (.err 400 "notes is required and cannot be empty", db)
      else
        let notesValue := if trimToString notes == "" then none else some (trimToString notes)
        match paymentUpdateStatus paymentId normalizedStatus notesValue db with
        | none => (.err 500 "Unexpected Supabase error", db)
        | some (updated, db1) =>
          match auditCreate
            { admin_id := adminId, action := "UPDATE_PAYMENT_STATUS", target_id := paymentId
              metadata := [("from", some existing.paymentStatus),
                           ("to", some normalizedStatus),
                           ("notes", notesValue),
                           ("proofStatus", some updated.proofStatus)] } db1 with
          | .error msg => (.err 500 msg, db1)
          | .ok (_, db2) => (.ok updated, db2)

/-- `refundPayment` (adminController.js:414): reject an already-refunded
payment with 400, require a non-empty trimmed `reason`, then refund and
audit. -/
def refundPaymentHandler (paymentId adminId : String) (reason : Option String)
    (db : Db) : Outcome NormPayment × Db :=
  match paymentFindById paymentId db with
  | none => (.err 404 "Payment not found", db)
  | some existing =>
    if existing.paymentStatus == "refunded" then
      (.err 400 "Payment is already refunded", db)
    else if trimToString reason == "" then
      (.err 400 "reason is required and cannot be empty", db)
    else
      match paymentRefund paymentId (trimToString reason) db with
      | none => (.err 500 "Unexpected Supabase error", db)
      | some (updated, db1) =>
        match auditCreate
          { admin_id := adminId, action := "REFUND_PAYMENT", target_id := paymentId
            metadata := [("from", some existing.paymentStatus),
                         ("to", some updated.paymentStatus),
                         ("reason", some (trimToString reason)),
                         ("proofStatus", some updated.proofStatus)] } db1 with
        | .error msg => (.err 500 msg, db1)
        | .ok (_, db2) => (.ok updated, db2)

/-! ### User service (supabaseService.js `UserService`,
`UserStatusHistoryService`) and the admin user handlers. -/

/-- `UserService.findById`. -/
def findUser (id : String) (db : Db) : Option User :=
  db.users.find? (fun u => u.id == id)

/-- The third argument the controller passes to `UserService.updateStatus`.
The controller may place suspension fields on it; the service's parameter
list `({ reason, adminId } = {})` destructures only those two names. -/
structure StatusUpdateOpts where
  reason : Option String := none
  adminId : Option String := none
  suspension_end_date : Option (Option Nat) := none
  suspension_count : Option Nat := none
  last_suspension_at : Option Nat := none
deriving DecidableEq, Repr

/-- `UserService.updateStatus` (supabaseService.js:337): builds the patch
from `status` plus the destructured `reason`/`adminId` **only** — any
suspension fields on `opts` never reach the `users` table. -/
def userServiceUpdateStatus (id status : String) (opts : StatusUpdateOpts)
    (now : Nat) (db : Db) : Option (User × Db) :=
  match db.users.find? (fun u => u.id == id) with
  | none => none
  | some u =>
    let u2 := { u with status := status
                       status_reason := opts.reason
                       status_updated_at := some now
                       status_updated_by := opts.adminId }
    some (u2, { db with users := db.users.map (fun x => if x.id == id then u2 else x) })

/-- `UserService.delete` (supabaseService.js:195): a plain row delete —
`supabase.from("users").delete().eq("id", id)`. It takes only the id; any
second argument a caller passes is ignored. -/
def userServiceDelete (id : String) (db : Db) : Db :=
  { db with users := db.users.filter (fun u => !(u.id == id)) }

/-- `UserService.softDelete` (supabaseService.js:352): marks the user
inactive and stamps the deletion metadata. No caller in the repository
invokes it. -/
def userServiceSoftDelete (id : String) (deletedBy reason : Option String)
    (now : Nat) (db : Db) : Option (User × Db) :=
  match db.users.find? (fun u => u.id == id) with
  | none => none
  | some u =>
    let u2 := { u with status := "inactive"
                       status_reason := some (reason.getD "Account deleted by administrator")
                       deleted_at := some now
                       deleted_by := deletedBy
                       status_updated_at := some now
                       status_updated_by := deletedBy }
    some (u2, { db with users := db.users.map (fun x => if x.id == id then u2 else x) })

/-- `UserStatusHistoryService.logChange`. -/
def logStatusChange (userId status : String) (reason changedBy : Option String)
    (now : Nat) (db : Db) : Db :=
  { db with statusHistory := db.statusHistory ++
      [{ user_id := userId, status := status, reason := reason
         changed_by := changedBy, changed_at := now }] }

/-- Statuses accepted by `updateUserStatus`. -/
def USER_STATUS_VALUES : List String := ["active", "suspended", "banned", "inactive"]

/-- What `updateUserStatus` answers on success: the updated row and the
top-level `suspensionEndDate` it computed (not necessarily persisted). -/
structure UserStatusResult where
  user : User
  suspensionEndDate : Option Nat
deriving DecidableEq, Repr

/-- `updateUserStatus` (adminController.js:768): validate the status, guard
admin targets, compute the suspension fields (`durationDays || 7`; count =
`(user.suspension_count || 0) + 1`) onto the `updates` object, call
`UserService.updateStatus`, append history, audit, and answer with the
computed `suspensionEndDate`. -/
def updateUserStatusHandler (userId : String) (actor : Actor) (status : String)
    (reason : Option String) (durationDays : Option Nat) (now : Nat) (db : Db) :
    Outcome UserStatusResult × Db :=
  if !(USER_STATUS_VALUES.contains status) then
    (.err 400 "Invalid status value", db)
  else
    match findUser userId db with
    | none => (.err 404 "User not found", db)
    | some user =>
      if user.role == "admin" && actor.role != "superadmin" then
        (.err 403 "Cannot modify admin accounts", db)
      else
        -- `durationDays || 7`: 0 is falsy in JS, so it also falls back to 7
        let days := match durationDays with
          | none => 7
          | some d => if d == 0 then 7 else d
        let suspensionEndDate : Option Nat :=
          if status == "suspended" then some (now + days) else none
        let updates : StatusUpdateOpts :=
          if status == "suspended" then
            { reason := reason, adminId := some actor.id
              suspension_end_date := some (some (now + days))
              suspension_count := some (user.suspension_count.getD 0 + 1)
              last_suspension_at := some now }
          else if status == "active" then
            { reason := reason, adminId := some actor.id
              suspension_end_date := some none }
          else
            { reason := reason, adminId := some actor.id }
        match userServiceUpdateStatus userId status updates now db with
        | none => (.err 500 "Unexpected Supabase error", db)
        | some (updatedUser, db1) =>
          let db2 := logStatusChange userId status reason (some actor.id) now db1
          match auditCreate
            { admin_id := actor.id, action := "UPDATE_USER_STATUS", target_id := userId
              metadata := [("from", some user.status), ("to", some status),
                           ("reason", reason),
                           ("durationDays",
                             match durationDays with
                             | some d => if d == 0 then none else some (toString d)
                             | none => none),
                           ("suspensionEndDate", suspensionEndDate.map toString),
                           ("suspensionCount", updates.suspension_count.map toString)] }
            db2 with
          | .error msg => (.err 500 msg, db2)
          | .ok (_, db3) =>
            -- the status email is fire-and-forget (failures swallowed)
            (.ok { user := updatedUser, suspensionEndDate := suspensionEndDate }, db3)

/-- `deleteUser` (adminController.js:1509): find the user, guard admin
targets, call `UserService.delete(userId, {reason, deletedBy})` — whose
second argument the service ignores — then audit. -/
def deleteUserHandler (userId : String) (actor : Actor) (reason : Option String)
    (db : Db) : Outcome Unit × Db :=
  match findUser userId db with
  | none => (.err 404 "User not found", db)
  | some user =>
    if user.role == "admin" && actor.role != "superadmin" then
      (.err 403 "Cannot delete admin accounts", db)
    else
      let db1 := userServiceDelete userId db
      match auditCreate
        { admin_id := actor.id, action := "DELETE_USER", target_id := userId
          metadata := [("email", some user.email), ("role", some user.role),
                       ("reason", reason)] } db1 with
      | .error msg => (.err 500 msg, db1)
      | .ok (_, db2) => (.ok (), db2)

/-! ### Report service (reportService.js) and `updateReportStatus`
(reportController.js). -/

/-- `ReportService.findById` (join fields omitted). -/
def findReport (id : String) (db : Db) : Option Report :=
  db.reports.find? (fun r => r.id == id)

/-- Statuses accepted by `updateReportStatus`. -/
def REPORT_STATUS_VALUES : List String := ["pending", "under_review", "resolved", "dismissed"]

/-- `ReportService.updateStatus` (reportService.js:300): writes the new
status (plus `admin_notes`/`reviewed_by`+`reviewed_at`/`resolution` when
supplied) and returns the **updated** row. -/
def reportServiceUpdateStatus (id status : String)
    (adminNotes reviewedBy resolution : Option String) (now : Nat) (db : Db) :
    Option (Report × Db) :=
  match db.reports.find? (fun r => r.id == id) with
  | none => none
  | some r =>
    let r1 := { r with status := status, updated_at := some now }
    let r2 := if falsy adminNotes then r1 else { r1 with admin_notes := adminNotes }
    let r3 := if falsy reviewedBy then r2
              else { r2 with reviewed_by := reviewedBy, reviewed_at := some now }
    let r4 := if falsy resolution then r3 else { r3 with resolution := resolution }
    some (r4, { db with reports := db.reports.map (fun x => if x.id == id then r4 else x) })

/-- `updateReportStatus` (reportController.js:123): validate the status,
update through `ReportService.updateStatus`, then audit with
`metadata: { from: report.status, to: status, resolution }` — where
`report` is the value `updateStatus` just returned. -/
def updateReportStatusHandler (id : String) (actor : Actor) (status : Option String)
    (adminNotes resolution : Option String) (now : Nat) (db : Db) :
    Outcome Report × Db :=
  if falsy status then (.err 400 "Status is required", db)
  else
    let s := status.getD ""
    if !(REPORT_STATUS_VALUES.contains s) then (.err 400 "Invalid status", db)
    else
      match reportServiceUpdateStatus id s adminNotes (some actor.id) resolution now db with
      | none => (.err 500 "Failed to update report status", db)
      | some (report, db1) =>
        match auditCreate
          { admin_id := actor.id, action := "report_status_updated", target_id := id
            metadata := [("from", some report.status), ("to", some s),
                         ("resolution", resolution)] } db1 with
        | .error _ => (.err 500 "Failed to update report status", db1)
        | .ok (_, db2) => (.ok report, db2)

/-! ### Observation helpers and concrete scenario databases used by the
theorems below. -/

/-- Whether a handler outcome is an HTTP success. -/
def Outcome.isOk : Outcome α → Bool
  | .ok _ => true
  | .err _ _ => false

/-- The success payload of a handler outcome, when present. -/
def outcomeData : Outcome α → Option α
  | .ok a => some a
  | .err _ _ => none

/-- The audit entry each exported job handler writes (summarizing the five
literals in adminController.js:1255–1427). -/
def jobActionAudit (a : JobAction) (jobId adminId : String) (reason : Option String) :
    AuditEntry :=
  match a with
  | .approve => { admin_id := adminId, action := "APPROVE_JOB", target_id := jobId
                  metadata := [("status", some "approved")] }
  | .reject => { admin_id := adminId, action := "REJECT_JOB", target_id := jobId
                 metadata := [("status", some "rejected"), ("reason", reason)] }
  | .cancel => { admin_id := adminId, action := "CANCEL_JOB", target_id := jobId
                 metadata := [("status", some "cancelled"), ("reason", reason)] }
  | .complete => { admin_id := adminId, action := "COMPLETE_JOB", target_id := jobId
                   metadata := [("status", some "completed")] }
  | .reopen => { admin_id := adminId, action := "REOPEN_JOB", target_id := jobId
                 metadata := [("status", some "open")] }

/-- A job whose status is outside every allow-list of the shadowed checking
handlers (`completed` is not an allowed current state for `approve`). -/
def dbJobCompleted : Db := { jobs := [{ id := "J1", status := "completed" }] }

/-- An approvable job in a database whose audit insert fails. -/
def dbAuditBroken : Db := { jobs := [{ id := "J1", status := "open" }], auditFails := true }

/-- A parent user with no suspension history. -/
def userActive : User :=
  { id := "U1", email := "u1@example.com", name := "User One", role := "parent"
    status := "active" }

def dbUserActive : Db := { users := [userActive] }

/-- The same user mid-suspension (a persisted suspension end date). -/
def dbUserSuspended : Db :=
  { users := [{ userActive with status := "suspended", suspension_end_date := some 50 }] }

/-- A cancelled booking (outside every documented transition source). -/
def dbBookingCancelled : Db := { bookings := [{ id := "B1", status := "cancelled" }] }

/-- A pending booking. -/
def dbBookingPending : Db := { bookings := [{ id := "B1", status := "pending" }] }

/-- A refunded payment. -/
def dbPaymentRefunded : Db :=
  { payments := [{ id := "P1", booking_id := "B1", payment_status := "refunded" }] }

/-- A paid payment. -/
def dbPaymentPaid : Db :=
  { payments := [{ id := "P1", booking_id := "B1", payment_status := "paid" }] }

/-- A pending payment. -/
def dbPaymentPending : Db :=
  { payments := [{ id := "P1", booking_id := "B1", payment_status := "pending" }] }

/-- A pending report. -/
def dbReportPending : Db := { reports := [{ id := "R1", status := "pending" }] }

/-- The database state after a successful booking transition: the booking
row rewritten to the target status and one audit entry appended. -/
def bookingSuccessState (db : Db) (bookingId adminId action target : String)
    (b : Booking) (reason : Option String) : Db :=
  { db with
      bookings := db.bookings.map
        (fun x => if x.id == bookingId then { b with status := target } else x)
      auditLogs := db.auditLogs ++
        [{ admin_id := adminId, action := action, target_id := bookingId
           metadata := [("from", some b.status), ("to", some target), ("reason", reason)] }] }

/-- The database state after a successful exported job transition: the job
row rewritten to the action's fixed target and one audit entry appended. -/
def jobSuccessState (db : Db) (jobId : String) (j : Job) (a : JobAction)
    (adminId : String) (reason : Option String) : Db :=
  { db with
      jobs := db.jobs.map
        (fun x => if x.id == jobId then { j with status := jobActionTarget a } else x)
      auditLogs := db.auditLogs ++ [jobActionAudit a jobId adminId reason] }

/-! ## Helper lemmas -/

/-- `String.append` is left-cancellative. -/
theorem strAppend_left_cancel {s a b : String} (h : s ++ a = s ++ b) : a = b := by
  have h2 := congrArg String.data h
  simp only [String.data_append] at h2
  exact String.ext (List.append_cancel_left h2)

/-- A string shorter than the fixed prefix is never an
`"Unexpected MIME type: " ++ v` message. -/
theorem ne_unexpectedMime {s : String} (hs : s.length < 22) (v : String) :
    s ≠ "Unexpected MIME type: " ++ v := by
  intro h
  have h2 := congrArg String.length h
  rw [String.length_append] at h2
  have h3 : ("Unexpected MIME type: " : String).length = 22 := by decide
  omega

theorem storage_ne_unexpected (v : String) :
    ("Missing storage path" : String) ≠ "Unexpected MIME type: " ++ v :=
  ne_unexpectedMime (by decide) v

theorem url_ne_unexpected (v : String) :
    ("Missing public URL" : String) ≠ "Unexpected MIME type: " ++ v :=
  ne_unexpectedMime (by decide) v

theorem unknown_ne_unexpected (v : String) :
    ("Unknown MIME type" : String) ≠ "Unexpected MIME type: " ++ v :=
  ne_unexpectedMime (by decide) v

/-- Membership characterization: the storage-path issue. -/
theorem mem_issues_storage (p : ProofRow) :
    ("Missing storage path" ∈ (assessProof p).1) ↔ falsy p.storage_path = true := by
  have hne := storage_ne_unexpected
  cases hsp : falsy p.storage_path <;> cases hpu : falsy p.public_url <;>
    cases hmt : falsy p.mime_type <;>
    simp [assessProof, hsp, hpu, hmt, hne]

/-- Membership characterization: the public-URL issue. -/
theorem mem_issues_url (p : ProofRow) :
    ("Missing public URL" ∈ (assessProof p).1) ↔ falsy p.public_url = true := by
  have hne := url_ne_unexpected
  cases hsp : falsy p.storage_path <;> cases hpu : falsy p.public_url <;>
    cases hmt : falsy p.mime_type <;>
    simp [assessProof, hsp, hpu, hmt, hne]

/-- Membership characterization: the unknown-MIME issue. -/
theorem mem_issues_unknown (p : ProofRow) :
    ("Unknown MIME type" ∈ (assessProof p).1) ↔ falsy p.mime_type = true := by
  have hne := unknown_ne_unexpected
  cases hsp : falsy p.storage_path <;> cases hpu : falsy p.public_url <;>
    cases hmt : falsy p.mime_type <;>
    simp [assessProof, hsp, hpu, hmt, hne]

/-- Membership in the issue list reduces to membership in its MIME segment
for `"Unexpected MIME type: "`-shaped strings. -/
theorem mem_issues_mime_segment (p : ProofRow) (v : String) :
    (("Unexpected MIME type: " ++ v) ∈ (assessProof p).1) ↔
      ("Unexpected MIME type: " ++ v) ∈
        (if falsy p.mime_type then ["Unknown MIME type"]
         else if strStartsWith (strToLower (p.mime_type.getD "")) "image/" then []
         else ["Unexpected MIME type: " ++ p.mime_type.getD ""]) := by
  have hs := storage_ne_unexpected
  have hu := url_ne_unexpected
  cases hsp : falsy p.storage_path <;> cases hpu : falsy p.public_url <;>
    simp [assessProof, hsp, hpu, fun x => (hs x).symm, fun x => (hu x).symm]

/-- Membership characterization: the unexpected-MIME issue carries exactly
the present, non-image MIME value. -/
theorem mem_issues_unexpected (p : ProofRow) (v : String) :
    (("Unexpected MIME type: " ++ v) ∈ (assessProof p).1) ↔
      (p.mime_type = some v ∧ v ≠ "" ∧
        strStartsWith (strToLower v) "image/" = false) := by
  rw [mem_issues_mime_segment]
  have hk := unknown_ne_unexpected
  cases hm : p.mime_type with
  | none => simp [falsy, fun x => (hk x).symm]
  | some w =>
    by_cases hw : w = ""
    · subst hw
      have hmt : falsy (some "") = true := by simp [falsy]
      simp only [hmt]
      simp [fun x => (hk x).symm]
      intro hv
      exact fun h => absurd hv.symm h
    · have hmt : falsy (some w) = false := by simp [falsy, hw]
      cases hpre : strStartsWith (strToLower w) "image/"
      · simp only [hmt, hpre, Bool.false_eq_true, if_false, Option.getD_some,
          List.mem_singleton]
        constructor
        · intro h
          obtain rfl : v = w := strAppend_left_cancel h
          exact ⟨rfl, hw, hpre⟩
        · rintro ⟨hvw, -, -⟩
          rw [Option.some.inj hvw]
      · simp only [hmt, hpre]
        simp
        constructor
        · rintro ⟨hfalse, -⟩
          rw [hpre] at hfalse
          exact absurd hfalse (by decide)
        · rintro ⟨rfl, -, hprev⟩
          rw [hpre] at hprev
          exact absurd hprev (by decide)

/-- `suspicious` is exactly "the issue list is non-empty". -/
theorem suspicious_iff (p : ProofRow) :
    (assessProof p).2 = true ↔ (assessProof p).1 ≠ [] := by
  have h : (assessProof p).2 = decide ((assessProof p).1.length > 0) := rfl
  rw [h, decide_eq_true_iff]
  exact List.length_pos

/-- The flattened issue list of a normalized proof set is empty iff every
underlying row assesses clean. -/
theorem flatMap_issues_nil (rows : List ProofRow) :
    ((rows.map normalizeProof).flatMap (fun p => p.issues) = []) ↔
      ∀ r ∈ rows, (assessProof r).1 = [] := by
  induction rows with
  | nil => simp
  | cons r rs ih => simp [normalizeProof, ih]

/-- Clean rows make every normalized proof non-suspicious. -/
theorem any_suspicious_false (rows : List ProofRow)
    (h : ∀ r ∈ rows, (assessProof r).1 = []) :
    (rows.map normalizeProof).any (fun p => p.suspicious) = false := by
  induction rows with
  | nil => simp
  | cons r rs ih =>
    simp only [List.map_cons, List.any_cons, Bool.or_eq_false_iff]
    refine ⟨?_, ih (fun x hx => h x (List.mem_cons_of_mem _ hx))⟩
    have hr := h r (List.mem_cons_self _ _)
    have h2 : (normalizeProof r).suspicious
        = decide ((assessProof r).1.length > 0) := rfl
    rw [h2, hr]
    decide

/-- `proofStatus = "ok"` characterization. -/
theorem proofStatus_ok_iff (record : Payment) (rows : List ProofRow) :
    ((normalizePaymentRecord record (rows.map normalizeProof)).proofStatus = "ok") ↔
      (rows ≠ [] ∧ ∀ r ∈ rows, (assessProof r).1 = []) := by
  cases rows with
  | nil => simp [normalizePaymentRecord]
  | cons r rs =>
    constructor
    · intro h
      simp [normalizePaymentRecord] at h
      obtain ⟨⟨hsr, hsrs⟩, hir, hirs⟩ := h
      refine ⟨by simp, ?_⟩
      intro x hx
      rcases List.mem_cons.mp hx with rfl | hx2
      · exact hir
      · exact hirs x hx2
    · rintro ⟨-, hall⟩
      have hflat := (flatMap_issues_nil (r :: rs)).mpr hall
      have hsusp := any_suspicious_false (r :: rs) hall
      simp only [List.map_cons] at hflat hsusp
      simp [normalizePaymentRecord] at hflat hsusp ⊢
      exact ⟨hsusp, hflat⟩

/-- After rewriting the matching job row, `find?` returns the rewritten
row. -/
theorem findJob_update (l : List Job) (id : String) (j j2 : Job)
    (hfind : l.find? (fun x => x.id == id) = some j) (hid : j2.id = j.id) :
    (l.map (fun x => if x.id == id then j2 else x)).find? (fun x => x.id == id)
      = some j2 := by
  induction l with
  | nil => simp at hfind
  | cons a l ih =>
    by_cases ha : (a.id == id) = true
    · simp only [List.find?_cons, ha] at hfind
      obtain rfl : a = j := Option.some.inj hfind
      have haid : a.id = id := eq_of_beq ha
      have hj2 : (j2.id == id) = true := beq_iff_eq.mpr (hid.trans haid)
      simp only [List.map_cons, if_pos ha, List.find?_cons, hj2]
    · have ha2 : (a.id == id) = false := by
        cases h : (a.id == id)
        · rfl
        · exact absurd h ha
      simp only [List.find?_cons, ha2] at hfind
      simp only [List.map_cons, List.find?_cons, ha2, Bool.false_eq_true, if_false]
      exact ih hfind

/-! ## Claims -/

/-- C7: `assessProof` yields each issue exactly under the specified
condition and is suspicious iff the issue list is non-empty;
`normalizePaymentRecord` of a payment with zero proofs yields
`proofIssues = ["No payment proof uploaded"]` and
`proofStatus = "needs_review"`, and yields `proofStatus = "ok"` iff the
proof set is non-empty and no proof has any issue. -/
theorem assess_proof_and_normalize_payment_spec :
    (∀ p : ProofRow,
      (("Missing storage path" ∈ (assessProof p).1) ↔ falsy p.storage_path = true) ∧
      (("Missing public URL" ∈ (assessProof p).1) ↔ falsy p.public_url = true) ∧
      (("Unknown MIME type" ∈ (assessProof p).1) ↔ falsy p.mime_type = true) ∧
      (∀ v : String, (("Unexpected MIME type: " ++ v) ∈ (assessProof p).1) ↔
        (p.mime_type = some v ∧ v ≠ "" ∧ strStartsWith (strToLower v) "image/" = false)) ∧
      ((assessProof p).2 = true ↔ (assessProof p).1 ≠ [])) ∧
    (∀ record : Payment,
      (normalizePaymentRecord record []).proofIssues = ["No payment proof uploaded"] ∧
      (normalizePaymentRecord record []).proofStatus = "needs_review") ∧
    (∀ (record : Payment) (rows : List ProofRow),
      ((normalizePaymentRecord record (rows.map normalizeProof)).proofStatus = "ok") ↔
        (rows ≠ [] ∧ ∀ r ∈ rows, (assessProof r).1 = [])) :=
  ⟨fun p => ⟨mem_issues_storage p, mem_issues_url p, mem_issues_unknown p,
    fun v => mem_issues_unexpected p v, suspicious_iff p⟩,
   fun _ => ⟨rfl, rfl⟩,
   fun record rows => proofStatus_ok_iff record rows⟩

/-- C8: updating a payment to its current status is an accepted no-op: the
handler answers 200 with the existing (re-joined) record, performs no
payment update and creates no audit-log entry — the database is returned
unchanged. -/
theorem payment_same_status_noop (db : Db) (paymentId adminId : String)
    (notes : Option String) (p : Payment)
    (hfind : paymentRow paymentId db = some p)
    (hvalid : p.payment_status ∈ PAYMENT_STATUS_VALUES) :
    updatePaymentStatusHandler paymentId adminId (some p.payment_status) notes db
      = (.ok (normPaymentOf db p), db) := by
  have hnorm : strToLower (trimToString (some p.payment_status)) = p.payment_status := by
    simp only [PAYMENT_STATUS_VALUES, List.mem_cons, List.not_mem_nil, or_false] at hvalid
    rcases hvalid with h | h | h | h <;> rw [h] <;> decide
  have hcont : PAYMENT_STATUS_VALUES.contains p.payment_status = true :=
    List.elem_iff.mpr hvalid
  have hbeq : ((normPaymentOf db p).paymentStatus == p.payment_status) = true := by
    have h : (normPaymentOf db p).paymentStatus = p.payment_status := rfl
    rw [h]
    exact beq_self_eq_true _
  simp only [updatePaymentStatusHandler, hnorm, hcont, Bool.not_true, Bool.false_eq_true,
    if_false, paymentFindById, hfind]
  simp [hbeq]

/-- Witness for C8 at a concrete pending payment. -/
theorem payment_same_status_noop_witness :
    updatePaymentStatusHandler "P1" "A1" (some "pending") none dbPaymentPending
      = (.ok (normPaymentOf dbPaymentPending
          { id := "P1", booking_id := "B1", payment_status := "pending" }), dbPaymentPending) :=
  payment_same_status_noop dbPaymentPending "P1" "A1" none
    { id := "P1", booking_id := "B1", payment_status := "pending" }
    (by decide) (by decide)

/-- C9: with the payment's current status different from the target, a
refund with a blank (missing or whitespace-only) reason and a status
update to `paid` with blank notes both fail with 400 and leave the
database untouched; with a non-empty trimmed note/reason the same
operations succeed. -/
theorem payment_note_and_reason_validation (db : Db) (paymentId adminId : String)
    (p : Payment) (hfind : paymentRow paymentId db = some p) :
    (∀ reason : Option String, p.payment_status ≠ "refunded" → trimToString reason = "" →
      refundPaymentHandler paymentId adminId reason db
        = (.err 400 "reason is required and cannot be empty", db)) ∧
    (∀ notes : Option String, p.payment_status ≠ "paid" → trimToString notes = "" →
      updatePaymentStatusHandler paymentId adminId (some "paid") notes db
        = (.err 400 "notes is required and cannot be empty", db)) ∧
    (∀ reason : Option String, p.payment_status ≠ "refunded" → trimToString reason ≠ "" →
      db.auditFails = false →
      ∃ u, (refundPaymentHandler paymentId adminId reason db).1 = .ok u ∧
        u.paymentStatus = "refunded") ∧
    (∀ notes : Option String, p.payment_status ≠ "paid" → trimToString notes ≠ "" →
      db.auditFails = false →
      ∃ u, (updatePaymentStatusHandler paymentId adminId (some "paid") notes db).1 = .ok u ∧
        u.paymentStatus = "paid") := by
  have hfind2 : db.payments.find? (fun x => x.id == paymentId) = some p := hfind
  have hnorm : strToLower (trimToString (some "paid")) = "paid" := by decide
  have hpmem : ("paid" : String) ∈ PAYMENT_STATUS_VALUES := by decide
  refine ⟨?_, ?_, ?_, ?_⟩
  · intro reason hne hblank
    have hbeq : ((normPaymentOf db p).paymentStatus == "refunded") = false :=
      beq_eq_false_iff_ne.mpr hne
    simp [refundPaymentHandler, paymentFindById, hfind, hbeq, hblank]
  · intro notes hne hblank
    have hbeq : ((normPaymentOf db p).paymentStatus == "paid") = false :=
      beq_eq_false_iff_ne.mpr hne
    simp [updatePaymentStatusHandler, hnorm, paymentFindById, hfind, hbeq, hblank, hpmem]
  · intro reason hne hnonempty haudit
    have hbeq : ((normPaymentOf db p).paymentStatus == "refunded") = false :=
      beq_eq_false_iff_ne.mpr hne
    have hblankb : (trimToString reason == "") = false :=
      beq_eq_false_iff_ne.mpr hnonempty
    simp [refundPaymentHandler, paymentFindById, hfind, hbeq, hblankb, paymentRefund,
      hfind2, auditCreate, haudit, hne, normPaymentOf, normalizePaymentRecord]
  · intro notes hne hnonempty haudit
    have hbeq : ((normPaymentOf db p).paymentStatus == "paid") = false :=
      beq_eq_false_iff_ne.mpr hne
    have hblankb : (trimToString notes == "") = false :=
      beq_eq_false_iff_ne.mpr hnonempty
    simp [updatePaymentStatusHandler, hnorm, paymentFindById, hfind, hbeq, hblankb,
      paymentUpdateStatus, hfind2, auditCreate, haudit, hne, hpmem, normPaymentOf,
      normalizePaymentRecord]

/-- Witness for C9: a whitespace-only refund reason is rejected on a paid
payment; a non-empty note lets a pending payment be marked paid. -/
theorem payment_note_and_reason_validation_witness :
    (refundPaymentHandler "P1" "A1" (some "   ") dbPaymentPaid
      = (.err 400 "reason is required and cannot be empty", dbPaymentPaid)) ∧
    (∃ u, (updatePaymentStatusHandler "P1" "A1" (some "paid") (some "bank slip ok")
        dbPaymentPending).1 = .ok u ∧ u.paymentStatus = "paid") :=
  ⟨(payment_note_and_reason_validation dbPaymentPaid "P1" "A1"
      { id := "P1", booking_id := "B1", payment_status := "paid" } (by decide)).1
      (some "   ") (by decide) (by decide),
   (payment_note_and_reason_validation dbPaymentPending "P1" "A1"
      { id := "P1", booking_id := "B1", payment_status := "pending" } (by decide)).2.2.2
      (some "bank slip ok") (by decide) (by decide) rfl⟩

/-- C6 counterexample: on a refunded payment, the status-update operation
happily moves the payment back to `pending` — the refunded state is not
terminal under `updatePaymentStatus`. -/
theorem refunded_not_terminal_cex :
    ((updatePaymentStatusHandler "P1" "A1" (some "pending") none dbPaymentRefunded).1).isOk
        = true ∧
    (paymentRow "P1"
        ((updatePaymentStatusHandler "P1" "A1" (some "pending") none dbPaymentRefunded).2)).map
        (fun q => q.payment_status) = some "pending" := by
  decide

/-- C6 amended: `refund` on an already-refunded payment fails with a 400
invalid-transition error and changes nothing; but `updatePaymentStatus`
imposes no terminality — it moves a refunded payment to any other valid
status (with a non-empty note when the target is `paid`). -/
theorem refunded_terminal_only_for_refund (db : Db) (paymentId adminId : String)
    (p : Payment) (hfind : paymentRow paymentId db = some p)
    (href : p.payment_status = "refunded") :
    (∀ reason, refundPaymentHandler paymentId adminId reason db
        = (.err 400 "Payment is already refunded", db)) ∧
    (∀ s, s ∈ PAYMENT_STATUS_VALUES → s ≠ "refunded" → db.auditFails = false →
      ∀ notes, (s = "paid" → trimToString notes ≠ "") →
      ∃ u, (updatePaymentStatusHandler paymentId adminId (some s) notes db).1 = .ok u ∧
        u.paymentStatus = s) := by
  have hfind2 : db.payments.find? (fun x => x.id == paymentId) = some p := hfind
  have hbeqStatus : (normPaymentOf db p).paymentStatus = "refunded" := href
  constructor
  · intro reason
    have hbeq : ((normPaymentOf db p).paymentStatus == "refunded") = true := by
      rw [hbeqStatus]; exact beq_self_eq_true _
    simp [refundPaymentHandler, paymentFindById, hfind, hbeq]
  · intro s hs hsne haudit notes hnotes
    simp only [PAYMENT_STATUS_VALUES, List.mem_cons, List.not_mem_nil, or_false] at hs
    rcases hs with h | h | h | h
    · subst h
      have hnorm : strToLower (trimToString (some "pending")) = "pending" := by decide
      have hbeq : ((normPaymentOf db p).paymentStatus == "pending") = false := by
        rw [hbeqStatus]; decide
      simp [updatePaymentStatusHandler, hnorm, paymentFindById, hfind, hbeq, href,
        paymentUpdateStatus, hfind2, auditCreate, haudit, normPaymentOf,
        normalizePaymentRecord, (by decide : ("pending" : String) ∈ PAYMENT_STATUS_VALUES)]
    · subst h
      have hnorm : strToLower (trimToString (some "paid")) = "paid" := by decide
      have hbeq : ((normPaymentOf db p).paymentStatus == "paid") = false := by
        rw [hbeqStatus]; decide
      have hblankb : (trimToString notes == "") = false :=
        beq_eq_false_iff_ne.mpr (hnotes rfl)
      simp [updatePaymentStatusHandler, hnorm, paymentFindById, hfind, hbeq, hblankb, href,
        paymentUpdateStatus, hfind2, auditCreate, haudit, normPaymentOf,
        normalizePaymentRecord, (by decide : ("paid" : String) ∈ PAYMENT_STATUS_VALUES)]
    · subst h
      have hnorm : strToLower (trimToString (some "disputed")) = "disputed" := by decide
      have hbeq : ((normPaymentOf db p).paymentStatus == "disputed") = false := by
        rw [hbeqStatus]; decide
      simp [updatePaymentStatusHandler, hnorm, paymentFindById, hfind, hbeq, href,
        paymentUpdateStatus, hfind2, auditCreate, haudit, normPaymentOf,
        normalizePaymentRecord, (by decide : ("disputed" : String) ∈ PAYMENT_STATUS_VALUES)]
    · exact absurd h hsne

/-- Witness for C6 (amended): a second refund of a refunded payment is
rejected; updating the same payment to `disputed` succeeds. -/
theorem refunded_terminal_only_for_refund_witness :
    (refundPaymentHandler "P1" "A1" (some "again") dbPaymentRefunded
      = (.err 400 "Payment is already refunded", dbPaymentRefunded)) ∧
    (∃ u, (updatePaymentStatusHandler "P1" "A1" (some "disputed") none dbPaymentRefunded).1
        = .ok u ∧ u.paymentStatus = "disputed") :=
  ⟨(refunded_terminal_only_for_refund dbPaymentRefunded "P1" "A1"
      { id := "P1", booking_id := "B1", payment_status := "refunded" }
      (by decide) rfl).1 (some "again"),
   (refunded_terminal_only_for_refund dbPaymentRefunded "P1" "A1"
      { id := "P1", booking_id := "B1", payment_status := "refunded" }
      (by decide) rfl).2 "disputed" (by decide) (by decide) rfl none
      (fun h => absurd h (by decide))⟩

/-- Folding the literal tail of the default transition-rejection message. -/
theorem booking_msg_append (s t : String) :
    "Cannot transition booking from " ++ s ++ " to " ++ t
      = "Cannot transition booking from " ++ s ++ (" to " ++ t) := by
  rw [String.append_assoc]

/-- `applyBookingStatusChange` with an allow-list that excludes the current
status rejects with 400 and leaves the database untouched. -/
theorem applyBooking_blocked (db : Db) (bookingId adminId target action : String)
    (reason : Option String) (allowed : List String) (hint : String) (b : Booking)
    (hfind : findBooking bookingId db = some b)
    (hmem : allowed.contains b.status = false) :
    applyBookingStatusChange bookingId adminId target action reason (some allowed)
      (some hint) db = (.err 400 hint, db) := by
  have hnotmem : ¬ (b.status ∈ allowed) := fun hin => by
    have h2 : allowed.contains b.status = true := List.elem_iff.mpr hin
    rw [h2] at hmem
    exact Bool.noConfusion hmem
  simp [applyBookingStatusChange, hfind, hnotmem]

/-- `applyBookingStatusChange` whose allow-list admits the current status
(or that has no allow-list) writes the target status and appends exactly
one `{from, to, reason}` audit entry. -/
theorem applyBooking_allowed (db : Db) (bookingId adminId target action : String)
    (reason : Option String) (allowed : Option (List String)) (hint : Option String)
    (b : Booking) (hfind : findBooking bookingId db = some b)
    (hmem : (match allowed with
             | some l => l.contains b.status
             | none => true) = true)
    (haudit : db.auditFails = false) :
    applyBookingStatusChange bookingId adminId target action reason allowed hint db
      = (.ok { b with status := target },
         bookingSuccessState db bookingId adminId action target b reason) := by
  have hfind2 : db.bookings.find? (fun x => x.id == bookingId) = some b := hfind
  cases allowed with
  | none =>
    simp [applyBookingStatusChange, findBooking, hfind2, bookingUpdateStatus,
      auditCreate, haudit, bookingSuccessState]
  | some l =>
    simp only at hmem
    have hm2 : b.status ∈ l := List.elem_iff.mp hmem
    simp [applyBookingStatusChange, findBooking, hfind2, bookingUpdateStatus,
      auditCreate, haudit, bookingSuccessState, hm2]

/-- C5 counterexample: the generic PATCH status endpoint moves a
**cancelled** booking straight to `completed`, which the claimed invariant
(completed only from confirmed) forbids. -/
theorem booking_generic_patch_unchecked_cex :
    ((updateBookingStatusHandler "B1" "A1" (some "completed") none dbBookingCancelled).1).isOk
        = true ∧
    (findBooking "B1"
        ((updateBookingStatusHandler "B1" "A1" (some "completed") none dbBookingCancelled).2)).map
        (fun x => x.status) = some "completed" := by
  decide

/-- C5 amended: the dedicated confirm/start/complete/cancel endpoints do
enforce the booking invariant (confirmed only from pending; completed —
and the no-op "start" — only from confirmed; cancelled only from pending
or confirmed), rejecting other current states with 400 and no mutation;
but the generic PATCH endpoint only validates the target against the
status enum and applies it from **any** current status. -/
theorem booking_transitions_enforced_except_generic (db : Db) (bookingId adminId : String)
    (reason : Option String) (b : Booking)
    (hfind : findBooking bookingId db = some b) (haudit : db.auditFails = false) :
    ((["pending"] : List String).contains b.status = false →
      confirmBookingHandler bookingId adminId reason db
        = (.err 400 "Only pending bookings can be confirmed", db)) ∧
    ((["pending"] : List String).contains b.status = true →
      confirmBookingHandler bookingId adminId reason db
        = (.ok { b with status := "confirmed" },
           bookingSuccessState db bookingId adminId "CONFIRM_BOOKING" "confirmed" b reason)) ∧
    ((["confirmed"] : List String).contains b.status = false →
      startBookingHandler bookingId adminId db
        = (.err 400 ("Cannot transition booking from " ++ b.status ++ (" to " ++ "confirmed")), db)) ∧
    ((["confirmed"] : List String).contains b.status = true →
      startBookingHandler bookingId adminId db
        = (.ok { b with status := "confirmed" },
           bookingSuccessState db bookingId adminId "START_BOOKING" "confirmed" b none)) ∧
    ((["confirmed"] : List String).contains b.status = false →
      completeBookingHandler bookingId adminId db
        = (.err 400 ("Cannot transition booking from " ++ b.status ++ (" to " ++ "completed")), db)) ∧
    ((["confirmed"] : List String).contains b.status = true →
      completeBookingHandler bookingId adminId db
        = (.ok { b with status := "completed" },
           bookingSuccessState db bookingId adminId "COMPLETE_BOOKING" "completed" b none)) ∧
    ((["pending", "confirmed"] : List String).contains b.status = false →
      cancelBookingHandler bookingId adminId reason db
        = (.err 400 "Only pending or confirmed bookings can be cancelled", db)) ∧
    ((["pending", "confirmed"] : List String).contains b.status = true →
      cancelBookingHandler bookingId adminId reason db
        = (.ok { b with status := "cancelled" },
           bookingSuccessState db bookingId adminId "CANCEL_BOOKING" "cancelled" b reason)) ∧
    (∀ s, s ∈ BOOKING_STATUS_VALUES →
      updateBookingStatusHandler bookingId adminId (some s) reason db
        = (.ok { b with status := s },
           bookingSuccessState db bookingId adminId "UPDATE_BOOKING_STATUS" s b reason)) := by
  refine ⟨?_, ?_, ?_, ?_, ?_, ?_, ?_, ?_, ?_⟩
  · intro hmem
    exact applyBooking_blocked db bookingId adminId "confirmed" "CONFIRM_BOOKING" reason
      ["pending"] "Only pending bookings can be confirmed" b hfind hmem
  · intro hmem
    exact applyBooking_allowed db bookingId adminId "confirmed" "CONFIRM_BOOKING" reason
      (some ["pending"]) (some "Only pending bookings can be confirmed") b hfind hmem haudit
  · intro hmem
    have hne : b.status ≠ "confirmed" := fun h => by
      rw [h] at hmem
      exact absurd hmem (by decide)
    simp [startBookingHandler, applyBookingStatusChange, hfind, hne, booking_msg_append]
  · intro hmem
    exact applyBooking_allowed db bookingId adminId "confirmed" "START_BOOKING" none
      (some ["confirmed"]) none b hfind hmem haudit
  · intro hmem
    have hne : b.status ≠ "confirmed" := fun h => by
      rw [h] at hmem
      exact absurd hmem (by decide)
    simp [completeBookingHandler, applyBookingStatusChange, hfind, hne, booking_msg_append]
  · intro hmem
    exact applyBooking_allowed db bookingId adminId "completed" "COMPLETE_BOOKING" none
      (some ["confirmed"]) none b hfind hmem haudit
  · intro hmem
    exact applyBooking_blocked db bookingId adminId "cancelled" "CANCEL_BOOKING" reason
      ["pending", "confirmed"] "Only pending or confirmed bookings can be cancelled" b
      hfind hmem
  · intro hmem
    exact applyBooking_allowed db bookingId adminId "cancelled" "CANCEL_BOOKING" reason
      (some ["pending", "confirmed"])
      (some "Only pending or confirmed bookings can be cancelled") b hfind hmem haudit
  · intro s hs
    have hcont : BOOKING_STATUS_VALUES.contains s = true := List.elem_iff.mpr hs
    have happ := applyBooking_allowed db bookingId adminId s "UPDATE_BOOKING_STATUS" reason
      none none b hfind rfl haudit
    simp [updateBookingStatusHandler, hcont, happ, hs]

/-- Witness for C5 (amended): on a pending booking, `confirm` succeeds and
`complete` is rejected; the generic PATCH jumps it straight to `completed`. -/
theorem booking_transitions_enforced_witness :
    (confirmBookingHandler "B1" "A1" none dbBookingPending
      = (.ok { id := "B1", status := "confirmed" },
         bookingSuccessState dbBookingPending "B1" "A1" "CONFIRM_BOOKING" "confirmed"
           { id := "B1", status := "pending" } none)) ∧
    (completeBookingHandler "B1" "A1" dbBookingPending
      = (.err 400 ("Cannot transition booking from " ++ "pending" ++ (" to " ++ "completed")),
         dbBookingPending)) ∧
    (updateBookingStatusHandler "B1" "A1" (some "completed") none dbBookingPending
      = (.ok { id := "B1", status := "completed" },
         bookingSuccessState dbBookingPending "B1" "A1" "UPDATE_BOOKING_STATUS" "completed"
           { id := "B1", status := "pending" } none)) :=
  ⟨(booking_transitions_enforced_except_generic dbBookingPending "B1" "A1" none
      { id := "B1", status := "pending" } (by decide) rfl).2.1 (by decide),
   (booking_transitions_enforced_except_generic dbBookingPending "B1" "A1" none
      { id := "B1", status := "pending" } (by decide) rfl).2.2.2.2.1 (by decide),
   (booking_transitions_enforced_except_generic dbBookingPending "B1" "A1" none
      { id := "B1", status := "pending" } (by decide) rfl).2.2.2.2.2.2.2.2
      "completed" (by decide)⟩

/-- C1 counterexample: the exported `approveJob` handler approves a
**completed** job — a current state outside the approve allow-list
(`pending`/`open`/`active`) — answering success, rewriting the status to
`filled`, and logging `{status: "approved"}` metadata with no
`{from, to}` keys. -/
theorem job_approve_unchecked_cex :
    ((["pending", "open", "active"] : List String).contains "completed" = false) ∧
    ((approveJobHandler "J1" "A1" dbJobCompleted).1).isOk = true ∧
    (findJob "J1" ((approveJobHandler "J1" "A1" dbJobCompleted).2)).map
        (fun j => j.status) = some "filled" ∧
    ((approveJobHandler "J1" "A1" dbJobCompleted).2).auditLogs.map
        (fun e => e.metadata) = [[("status", some "approved")]] := by
  decide

/-- C1 amended: the exported admin job handlers (the later definitions,
which shadow the allow-list-checking ones) perform **no** current-state
check: for every existing job each action succeeds regardless of status,
writes its fixed target (`filled`/`cancelled`/`cancelled`/`completed`/
`active`), and appends exactly one audit entry whose metadata is the
`{status: <label>}` form — never `{from, to}`; only a missing job is
rejected (404, nothing mutated, no audit entry). -/
theorem job_admin_actions_unchecked (db : Db) (a : JobAction) (jobId adminId : String)
    (reason : Option String) (haudit : db.auditFails = false) :
    (findJob jobId db = none →
      runJobAction a jobId adminId reason db = (.err 404 "Job not found", db)) ∧
    (∀ j, findJob jobId db = some j →
      runJobAction a jobId adminId reason db
        = (.ok { j with status := jobActionTarget a },
           jobSuccessState db jobId j a adminId reason)) ∧
    (∀ v, ("from", v) ∉ (jobActionAudit a jobId adminId reason).metadata) := by
  refine ⟨?_, ?_, ?_⟩
  · intro hnone
    have hnone2 : db.jobs.find? (fun x => x.id == jobId) = none := hnone
    cases a <;>
      simp [runJobAction, approveJobHandler, rejectJobHandler, cancelJobHandler,
        completeJobHandler, reopenJobHandler, jobActionRun, findJob, hnone2]
  · intro j hfind
    have hfind2 : db.jobs.find? (fun x => x.id == jobId) = some j := hfind
    cases a <;>
      simp [runJobAction, approveJobHandler, rejectJobHandler, cancelJobHandler,
        completeJobHandler, reopenJobHandler, jobActionRun, findJob, hfind2,
        jobServiceApprove, jobServiceReject, jobServiceCancel, jobServiceComplete,
        jobServiceReopen, jobUpdateStatus, auditCreate, haudit, jobActionTarget,
        jobActionAudit, jobSuccessState]
  · intro v
    cases a <;> simp [jobActionAudit]

/-- Witness for C1 (amended): approving the completed job `J1` succeeds and
produces the status-label audit entry. -/
theorem job_admin_actions_unchecked_witness :
    runJobAction JobAction.approve "J1" "A1" none dbJobCompleted
      = (.ok { id := "J1", status := "filled" },
         jobSuccessState dbJobCompleted "J1" { id := "J1", status := "completed" }
           JobAction.approve "A1" none) :=
  (job_admin_actions_unchecked dbJobCompleted JobAction.approve "J1" "A1" none rfl).2.1
    { id := "J1", status := "completed" } (by decide)

/-- C2 counterexample: with a failing audit insert, the exported
`approveJob` handler surfaces a 500 to the caller even though the job row
has already been rewritten to `filled` — the audit failure *does* become
the error surfaced for the operation, which does not complete
successfully from the caller's perspective. -/
theorem audit_failure_surfaces_cex :
    (approveJobHandler "J1" "A1" dbAuditBroken).1 = .err 500 "audit insert failed" ∧
    (findJob "J1" ((approveJobHandler "J1" "A1" dbAuditBroken).2)).map
        (fun j => j.status) = some "filled" ∧
    ((approveJobHandler "J1" "A1" dbAuditBroken).2).auditLogs = [] := by
  decide

/-- C2 amended: only the legacy `auditService.logAction` wrapper catches an
audit-insert failure and returns `null` with nothing appended;
`AuditLogService.create` itself throws, and the admin handlers await it
directly, so an audit failure surfaces as a 500 to the caller — after the
primary mutation has already been applied. -/
theorem audit_failures_caught_only_in_legacy_wrapper (db : Db) (entry : AuditEntry)
    (jobId adminId : String) (j : Job) :
    (db.auditFails = true → logAction entry db = (none, db)) ∧
    (db.auditFails = false →
      logAction entry db = (some entry, { db with auditLogs := db.auditLogs ++ [entry] })) ∧
    (db.auditFails = true → findJob jobId db = some j →
      (approveJobHandler jobId adminId db).1 = .err 500 "audit insert failed" ∧
      (findJob jobId ((approveJobHandler jobId adminId db).2)).map (fun x => x.status)
        = some "filled") := by
  refine ⟨?_, ?_, ?_⟩
  · intro hfail
    simp [logAction, auditCreate, hfail]
  · intro hok
    simp [logAction, auditCreate, hok]
  · intro hfail hfind
    have hfind2 : db.jobs.find? (fun x => x.id == jobId) = some j := hfind
    constructor
    · simp [approveJobHandler, jobActionRun, findJob, hfind2, jobServiceApprove,
        jobUpdateStatus, auditCreate, hfail]
    · have hres : (approveJobHandler jobId adminId db).2
          = { db with jobs := (List.map
              (fun x => if x.id == jobId then { j with status := "filled" } else x)
              db.jobs) } := by
        simp [approveJobHandler, jobActionRun, findJob, hfind2, jobServiceApprove,
          jobUpdateStatus, auditCreate, hfail]
      rw [hres]
      have h2 := findJob_update db.jobs jobId j { j with status := "filled" } hfind2 rfl
      show Option.map (fun x => x.status) (List.find? (fun x => x.id == jobId)
          (List.map (fun x => if x.id == jobId then { j with status := "filled" } else x)
            db.jobs)) = some "filled"
      rw [h2]
      rfl

/-- Witness for C2 (amended): with the audit insert failing, `logAction`
answers `null` and nothing else, while `approveJob` surfaces a 500 after
having rewritten the job. -/
theorem audit_failures_caught_only_in_legacy_wrapper_witness :
    (logAction { admin_id := "A1", action := "TEST_ACTION", target_id := "T1"
                 metadata := [] } dbAuditBroken = (none, dbAuditBroken)) ∧
    ((approveJobHandler "J1" "A1" dbAuditBroken).1 = .err 500 "audit insert failed" ∧
     (findJob "J1" ((approveJobHandler "J1" "A1" dbAuditBroken).2)).map
        (fun x => x.status) = some "filled") :=
  ⟨(audit_failures_caught_only_in_legacy_wrapper dbAuditBroken
      { admin_id := "A1", action := "TEST_ACTION", target_id := "T1", metadata := [] }
      "J1" "A1" { id := "J1", status := "open" }).1 rfl,
   (audit_failures_caught_only_in_legacy_wrapper dbAuditBroken
      { admin_id := "A1", action := "TEST_ACTION", target_id := "T1", metadata := [] }
      "J1" "A1" { id := "J1", status := "open" }).2.2 rfl (by decide)⟩

/-- C3 (code bug): suspending user `U1` for 3 days reports
`suspensionEndDate = now + 3` to the caller, yet the persisted row keeps
`suspension_end_date`/`suspension_count`/`last_suspension_at` untouched —
`UserService.updateStatus` destructures only `{reason, adminId}` and drops
the suspension fields the controller computed; reactivating likewise
leaves a stored `suspension_end_date` uncleared. -/
theorem suspension_fields_not_persisted :
    ((outcomeData (updateUserStatusHandler "U1" { id := "A1", role := "superadmin" }
        "suspended" (some "spam") (some 3) 100 dbUserActive).1).map
        (fun r => r.suspensionEndDate) = some (some 103)) ∧
    ((findUser "U1" ((updateUserStatusHandler "U1" { id := "A1", role := "superadmin" }
        "suspended" (some "spam") (some 3) 100 dbUserActive).2)).map
        (fun u => (u.status, u.suspension_end_date, u.suspension_count, u.last_suspension_at))
      = some ("suspended", none, none, none)) ∧
    ((findUser "U1" ((updateUserStatusHandler "U1" { id := "A1", role := "superadmin" }
        "active" none none 200 dbUserSuspended).2)).map
        (fun u => (u.status, u.suspension_end_date))
      = some ("active", some 50)) := by
  decide

/-- C4 (code bug): the admin delete-user operation removes the row from the
`users` table outright — `UserService.delete` runs a plain `delete()` and
ignores the `{reason, deletedBy}` argument — while the never-called
`UserService.softDelete` is the variant that would have kept the row with
`deletedAt`/`deletedBy` stamped and status `inactive`. -/
theorem delete_user_hard_deletes :
    ((deleteUserHandler "U1" { id := "A1", role := "superadmin" } (some "cleanup")
        dbUserActive).1).isOk = true ∧
    findUser "U1" ((deleteUserHandler "U1" { id := "A1", role := "superadmin" }
        (some "cleanup") dbUserActive).2) = none ∧
    ((deleteUserHandler "U1" { id := "A1", role := "superadmin" } (some "cleanup")
        dbUserActive).2).users = [] ∧
    ((userServiceSoftDelete "U1" (some "A1") (some "cleanup") 100 dbUserActive).map
        (fun r => (findUser "U1" r.2).map (fun u => (u.status, u.deleted_at, u.deleted_by))))
      = some (some ("inactive", some 100, some "A1")) := by
  decide

/-- `ReportService.updateStatus` returns the already-updated row (its
status is the new one), rewriting the stored report in place. -/
theorem reportServiceUpdateStatus_spec (db : Db) (id s : String)
    (adminNotes reviewedBy resolution : Option String) (now : Nat) (r : Report)
    (hfind : db.reports.find? (fun x => x.id == id) = some r) :
    ∃ rep, reportServiceUpdateStatus id s adminNotes reviewedBy resolution now db
        = some (rep,
            { db with reports := db.reports.map (fun x => if x.id == id then rep else x) })
      ∧ rep.status = s := by
  unfold reportServiceUpdateStatus
  rw [hfind]
  refine ⟨_, rfl, ?_⟩
  dsimp only
  split <;> split <;> split <;> rfl

/-- C10: every successful report status update writes its audit entry from
the already-updated record, so `metadata.from` equals `metadata.to` (the
new status) — never the report's prior status. -/
theorem report_audit_from_equals_new_status (db : Db) (id s : String) (actor : Actor)
    (adminNotes resolution : Option String) (now : Nat) (r : Report)
    (hfind : findReport id db = some r) (hs : s ∈ REPORT_STATUS_VALUES)
    (haudit : db.auditFails = false) :
    ∃ rep db1,
      updateReportStatusHandler id actor (some s) adminNotes resolution now db
        = (.ok rep, db1) ∧
      rep.status = s ∧
      db1.auditLogs = db.auditLogs ++
        [{ admin_id := actor.id, action := "report_status_updated", target_id := id
           metadata := [("from", some s), ("to", some s), ("resolution", resolution)] }] := by
  have hfind2 : db.reports.find? (fun x => x.id == id) = some r := hfind
  have hs2 := hs
  simp only [REPORT_STATUS_VALUES, List.mem_cons, List.not_mem_nil, or_false] at hs2
  have hsne : falsy (some s) = false := by
    rcases hs2 with h | h | h | h <;> subst h <;> decide
  have hcont : REPORT_STATUS_VALUES.contains s = true := List.elem_iff.mpr hs
  obtain ⟨rep, hserv, hstatus⟩ :=
    reportServiceUpdateStatus_spec db id s adminNotes (some actor.id) resolution now r hfind2
  refine ⟨rep,
    { db with
        reports := db.reports.map (fun x => if x.id == id then rep else x)
        auditLogs := db.auditLogs ++
          [{ admin_id := actor.id, action := "report_status_updated", target_id := id
             metadata := [("from", some s), ("to", some s), ("resolution", resolution)] }] },
    ?_, hstatus, rfl⟩
  simp [updateReportStatusHandler, hsne, hcont, hserv, auditCreate, haudit, hs, hstatus]

/-- Witness for C10: resolving the pending report `R1` logs
`{from: "resolved", to: "resolved"}`, not `{from: "pending"}`. -/
theorem report_audit_from_equals_new_status_witness :
    ∃ rep db1,
      updateReportStatusHandler "R1" { id := "A9", role := "admin" } (some "resolved")
        none (some "warned user") 500 dbReportPending = (.ok rep, db1) ∧
      rep.status = "resolved" ∧
      db1.auditLogs = dbReportPending.auditLogs ++
        [{ admin_id := "A9", action := "report_status_updated", target_id := "R1"
           metadata := [("from", some "resolved"), ("to", some "resolved"),
                        ("resolution", some "warned user")] }] :=
  report_audit_from_equals_new_status dbReportPending "R1" "resolved"
    { id := "A9", role := "admin" } none (some "warned user") 500
    { id := "R1", status := "pending" } (by decide) (by decide) rfl

end Iyaya
